import Mathlib

/-!
# A verification development for the truyenfull crawl-and-persist pipeline

This file gives a shallow embedding of the crawler core (`src/Crawler.js` and
`src/index.js`) and proves/refutes the frozen claims about it.

Modelling conventions, fixed once here:

* JavaScript strings are Lean `String`s; string scanning (regular-expression
  matches such as `/chuong-(\d+)/`, `replace`, `split`) is implemented over
  `String.toList` with structurally recursive char-list functions so that every
  definition is executable and kernel-reducible.
* `Array.prototype.sort(cmp)` is modelled as the stable comparison sort
  `List.insertionSort (fun a b => cmp a b ≤ 0)`.  Since ES2019 engines are
  required to sort stably, and for a consistent comparator every stable
  comparison sort produces the same list, this is faithful whenever the
  comparator is consistent; counterexamples below are chosen so that the
  comparator is consistent on the concrete input, making them engine-independent.
* Network behaviour and HTML extraction are abstracted by a deterministic
  `World`: the listing anchors per page, the terminal per-URL outcome of a
  chapter fetch (success with extracted title/content, or the final error after
  retry exhaustion), and an oracle `writeOk` giving the success of the k-th
  filesystem write of the run.  Retry behaviour itself (`fetchPage`) is
  modelled separately and exactly (`fetchPageM`).
* The filesystem slice that matters (the per-story `chapters` directory) is a
  list of (directory, filename, parsed chapter record) entries; `story.json`,
  `info.json` and `errors.log` live outside that directory and are recorded as
  dedicated event lists.  Directory creation (`fs.ensureDir`) and the
  `errors.log` append are treated as infallible; chapter and manifest writes
  consult the `writeOk` oracle.
* JavaScript truthiness of an optional number (`null`, `NaN` and `0` are
  falsy) is modelled by `truthyNum : Option Nat → Bool`.
-/

/-! ## Character/string utilities (JS string operations over char lists) -/

/-- Numeric value of a list of decimal digit characters (the value
`parseInt` assigns to the matched digit run). -/
def digitsVal (ds : List Char) : Nat :=
  ds.foldl (fun a c => a * 10 + (c.toNat - 48)) 0

/-- First match of the pattern `pat(\d+)` in a char list, as performed by
`String.prototype.match` with a regex such as `/chuong-(\d+)/`: scan left to
right, and at each occurrence of `pat` require at least one following digit,
otherwise keep scanning. -/
def findNumAfter (pat : List Char) : List Char → Option Nat
  | [] => none
  | c :: cs =>
    if pat.isPrefixOf (c :: cs) then
      let ds := ((c :: cs).drop pat.length).takeWhile Char.isDigit
      if ds.isEmpty then findNumAfter pat cs else some (digitsVal ds)
    else findNumAfter pat cs

/-- `url.match(/chuong-(\d+)/)` followed by `parseInt` (Crawler.js lines
117-118 and 204-205). -/
def parseChapterNumber (s : String) : Option Nat :=
  findNumAfter "chuong-".toList s.toList

/-- `file.match(/chapter-(\d+)/)` followed by `parseInt` (index.js line 129). -/
def parseChapterFileNumber (s : String) : Option Nat :=
  findNumAfter "chapter-".toList s.toList

/-- Remove the first occurrence of `pat`, returning `none` when absent
(helper for JS `String.prototype.replace` with a plain-string pattern). -/
def removeFirstAux (pat : List Char) : List Char → Option (List Char)
  | [] => none
  | c :: cs =>
    if pat.isPrefixOf (c :: cs) then some ((c :: cs).drop pat.length)
    else (removeFirstAux pat cs).map (c :: ·)

/-- JS `s.replace(pat, "")` for a plain-string `pat`: removes the first
occurrence only. -/
def removeFirstOcc (pat : List Char) (s : List Char) : List Char :=
  (removeFirstAux pat s).getD s

/-- JS whitespace class `\s` restricted to the characters that can occur in
our strings. -/
def jsSpace (c : Char) : Bool :=
  c == ' ' || c == '\t' || c == '\n' || c == '\r'

/-- The character class `[<>:"/\\|?*]` of `sanitizeFileName`. -/
def invalidFileChar (c : Char) : Bool :=
  c == '<' || c == '>' || c == ':' || c == '"' || c == '/' ||
  c == '\\' || c == '|' || c == '?' || c == '*'

/-- Replace every maximal run of characters satisfying `p` by the single
character `rep` (JS `replace(/X+/g, rep)`).  The boolean argument tracks
whether we are inside a run. -/
def collapseRuns (p : Char → Bool) (rep : Char) : Bool → List Char → List Char
  | _, [] => []
  | inRun, c :: cs =>
    if p c then
      if inRun then collapseRuns p rep true cs
      else rep :: collapseRuns p rep true cs
    else c :: collapseRuns p rep false cs

/-- JS `String.prototype.trim` (whitespace from both ends). -/
def trimChars (cs : List Char) : List Char :=
  ((cs.dropWhile jsSpace).reverse.dropWhile jsSpace).reverse

/-- `sanitizeFileName` from utils.js: invalid filename characters to `_`,
whitespace runs to `_`, underscore runs collapsed, then trim. -/
def sanitizeFileName (s : String) : String :=
  let step1 := s.toList.map (fun c => if invalidFileChar c then '_' else c)
  let step2 := collapseRuns jsSpace '_' false step1
  let step3 := collapseRuns (fun c => c == '_') '_' false step2
  String.mk (trimChars step3)

/-- JS `n.toString().padStart(5, "0")`. -/
def padStart5 (n : Nat) : String :=
  let s := toString n
  String.mk (List.replicate (5 - s.length) '0') ++ s

/-- JS truthiness of an optional number: `null`/`NaN` (`none`) and `0` are
falsy. -/
def truthyNum : Option Nat → Bool
  | some n => n != 0
  | none => false

/-- `parseInt(s, 10)` for the nonnegative command-line arguments this program
sees: value of the leading digit run, `none` for `NaN`. -/
def parseIntJs (s : String) : Option Nat :=
  let ds := s.toList.takeWhile Char.isDigit
  if ds.isEmpty then none else some (digitsVal ds)

/-- `storyUrl.replace(/\/$/, "")` (Crawler.js line 98): strip one trailing
slash. -/
def stripTrailingSlash (s : String) : String :=
  if s.toList.getLast? == some '/' then String.mk s.toList.dropLast else s

/-- UTF-16 code-unit lexicographic order used by `Array.prototype.sort()`
without a comparator (for the filenames sorted at index.js line 249). -/
def lexLeChars : List Char → List Char → Bool
  | [], _ => true
  | _ :: _, [] => false
  | a :: as, b :: bs => if a == b then lexLeChars as bs else decide (a.toNat ≤ b.toNat)

def strRel (a b : String) : Prop := lexLeChars a.toList b.toList = true

instance : DecidableRel strRel := fun a b =>
  inferInstanceAs (Decidable (lexLeChars a.toList b.toList = true))

/-! ## Data model -/

/-- The crawler base URL (Crawler.js line 7). -/
def baseUrl : String := "https://truyenfull.vision"

/-- The two renderings of a chapter body produced by `getChapterContent`. -/
structure ChapterContent where
  text : String
  html : String
deriving DecidableEq, Repr

/-- A chapter record as produced by `getChapterContent` or parsed back from a
chapter file.  JS objects are open records: `order` is an optional field that
`getChapterContent` never sets (its result literal at Crawler.js lines 207-215
has no `order` property), which is why it is `Option Nat` here with `none`
playing the role of `undefined`. -/
structure Chapter where
  number : Option Nat
  title : String
  url : String
  content : ChapterContent
  order : Option Nat
deriving DecidableEq, Repr

/-- A manifest entry: `const { content, ...metadata } = chapter` (index.js
line 80) keeps every field except `content`. -/
structure ChapterMeta where
  number : Option Nat
  title : String
  url : String
  order : Option Nat
deriving DecidableEq, Repr

def Chapter.meta (c : Chapter) : ChapterMeta :=
  ⟨c.number, c.title, c.url, c.order⟩

/-- A chapter reference extracted from a listing page (Crawler.js lines
120-125). -/
structure ChapterRef where
  number : Option Nat
  title : String
  url : String
  order : Nat
deriving DecidableEq, Repr

/-- Story information extracted from the root page (Crawler.js lines 77-82). -/
structure StoryInfo where
  title : String
  slug : String
  url : String
  totalPages : Nat
deriving DecidableEq, Repr

/-- An anchor found by the `#list-chapter` selector: its `href` attribute and
the title that `$link.attr("title") || text` evaluates to. -/
structure RawLink where
  href : String
  title : String
deriving DecidableEq, Repr

/-- One file of the per-story `chapters` directory: directory path, file
name, and the chapter record its JSON parses to. -/
structure StoredFile where
  dir : String
  name : String
  ch : Chapter
deriving DecidableEq, Repr

/-- The payload handed to the `onError` callback (Crawler.js lines 317-321). -/
structure ErrorRecord where
  chapter : ChapterRef
  error : String
  timestamp : String
deriving DecidableEq, Repr

/-- Parsed command-line options (index.js lines 166-174).  `delayMs`,
`startChapter`, `endChapter` are `Option Nat` because `parseInt` can yield
`NaN` and the start/end options default to `null`. -/
structure Options where
  outputDir : String
  delayMs : Option Nat
  startChapter : Option Nat
  endChapter : Option Nat
  format : String
  resume : Bool
  force : Bool
deriving DecidableEq, Repr

def defaultOptions : Options :=
  { outputDir := "./output", delayMs := some 1000, startChapter := none,
    endChapter := none, format := "json", resume := true, force := false }

/-- The deterministic environment of one run: extraction results per page,
terminal chapter-fetch outcomes per URL, the write-success oracle (indexed by
the ordinal of the filesystem write within the run), the message of a failed
write, and the timestamps `new Date().toISOString()` returns (indexed by the
number of errors recorded so far). -/
structure World where
  rootTitle : String
  totalPages : Nat
  links : Nat → List RawLink
  chapterPage : String → Except String (String × ChapterContent)
  writeOk : Nat → Bool
  writeErr : Nat → String
  clock : Nat → String

/-! ## PageFetcher: `fetchPage` with retry (Crawler.js lines 26-55) -/

/-- Outcome of one attempt to fetch a URL: the response text, or the message
of the error thrown (timeout, network error, or non-ok HTTP status). -/
inductive FetchOutcome
  | ok (html : String)
  | fail (msg : String)
deriving DecidableEq, Repr

instance {ε α : Type} [DecidableEq ε] [DecidableEq α] : DecidableEq (Except ε α)
  | .ok a, .ok b =>
    if h : a = b then .isTrue (by rw [h])
    else .isFalse (fun hh => h (Except.ok.inj hh))
  | .ok _, .error _ => .isFalse (fun hh => Except.noConfusion hh)
  | .error _, .ok _ => .isFalse (fun hh => Except.noConfusion hh)
  | .error e, .error f =>
    if h : e = f then .isTrue (by rw [h])
    else .isFalse (fun hh => h (Except.error.inj hh))

/-- Observable result of `fetchPage`: how many attempts were made, the delays
awaited before each retry (in order), and the final result. -/
structure FetchTrace where
  attempts : Nat
  delays : List Nat
  result : Except String String
deriving DecidableEq, Repr

/-- `fetchPage(url, retryCount)` where `fuel = retries - retryCount` is the
remaining retry budget: on failure with budget left, wait
`delay * (retryCount + 1)` and recurse; with no budget left, throw
`Failed to fetch <url>: <last message>`. -/
def fetchPageGo (url : String) (delayMs : Nat) (outcome : Nat → FetchOutcome)
    (rc : Nat) : Nat → FetchTrace
  | 0 =>
    match outcome rc with
    | .ok h => ⟨1, [], .ok h⟩
    | .fail m => ⟨1, [], .error ("Failed to fetch " ++ url ++ ": " ++ m)⟩
  | fuel + 1 =>
    match outcome rc with
    | .ok h => ⟨1, [], .ok h⟩
    | .fail _ =>
      let t := fetchPageGo url delayMs outcome (rc + 1) fuel
      ⟨t.attempts + 1, delayMs * (rc + 1) :: t.delays, t.result⟩

/-- `fetchPage(url)` with the configured `delay` and `retries`. -/
def fetchPageM (url : String) (delayMs retries : Nat)
    (outcome : Nat → FetchOutcome) : FetchTrace :=
  fetchPageGo url delayMs outcome 0 retries

/-! ## Extraction (`getStoryInfo`, `getChaptersFromPage`, `getChapterContent`) -/

/-- Slug extraction (Crawler.js lines 74-75): strip the first occurrence of
the base URL, split on `/`, drop empty segments, first segment or
`"unknown"`. -/
def slugOf (storyUrl : String) : String :=
  let stripped := removeFirstOcc baseUrl.toList storyUrl.toList
  match (List.splitOn '/' stripped).filter (fun p => !p.isEmpty) with
  | [] => "unknown"
  | p :: _ => String.mk p

/-- `getStoryInfo` (Crawler.js lines 60-86); the title and total-page count
are extraction results supplied by the world. -/
def getStoryInfoM (w : World) (storyUrl : String) : StoryInfo :=
  { title := w.rootTitle, slug := slugOf storyUrl, url := storyUrl,
    totalPages := w.totalPages }

/-- The URL fetched for listing page `p` (Crawler.js lines 93-102). -/
def pageUrlM (storyUrl : String) (p : Nat) : String :=
  if p > 1 then
    stripTrailingSlash storyUrl ++ "/trang-" ++ toString p ++ "/#list-chapter"
  else storyUrl ++ "#list-chapter"

/-- `getChaptersFromPage` (Crawler.js lines 110-127): each anchor with a
truthy `href` becomes a reference; `order` is the anchor iteration index on
that page; `number` is parsed from the raw `href`; relative `href`s are
absolutized against the base URL. -/
def chaptersFromPage (w : World) (p : Nat) : List ChapterRef :=
  (w.links p).enum.filterMap (fun ic =>
    if ic.2.href.isEmpty then none
    else some
      { number := parseChapterNumber ic.2.href
        title := ic.2.title
        url := if "http".toList.isPrefixOf ic.2.href.toList then ic.2.href
               else baseUrl ++ ic.2.href
        order := ic.1 })

/-- All references accumulated across pages `1..totalPages` (Crawler.js lines
145-157), before sorting. -/
def mergedRefs (w : World) : List ChapterRef :=
  ((List.range w.totalPages).map (fun i => chaptersFromPage w (i + 1))).flatten

/-- The comparator of `getAllChapters` (Crawler.js lines 160-165). -/
def chapterCmp (a b : ChapterRef) : Int :=
  match a.number, b.number with
  | some m, some n => (m : Int) - (n : Int)
  | _, _ => (a.order : Int) - (b.order : Int)

def chapterRel (a b : ChapterRef) : Prop := chapterCmp a b ≤ 0

instance : DecidableRel chapterRel := fun a b =>
  inferInstanceAs (Decidable (chapterCmp a b ≤ 0))

/-- The merged reference list after `allChapters.sort(...)`. -/
def sortedRefsOf (w : World) : List ChapterRef :=
  List.insertionSort chapterRel (mergedRefs w)

/-- The listing-page URLs fetched by `getAllChapters`, in order. -/
def listingPageUrls (w : World) (storyUrl : String) : List String :=
  (List.range w.totalPages).map (fun i => pageUrlM storyUrl (i + 1))

/-- `getChapterContent` (Crawler.js lines 179-219): on fetch failure the error
is rethrown as `Failed to get chapter content from <url>: <msg>`; on success
the chapter number is re-derived from the URL and the result record has no
`order` field. -/
def getChapterContentM (w : World) (chapterUrl : String) : Except String Chapter :=
  match w.chapterPage chapterUrl with
  | .error msg =>
    .error ("Failed to get chapter content from " ++ chapterUrl ++ ": " ++ msg)
  | .ok tc =>
    .ok { number := parseChapterNumber chapterUrl, title := tc.1,
          url := chapterUrl, content := tc.2, order := none }

/-! ## PersistenceStore (index.js lines 38-149) -/

/-- `path.join` for the well-formed path components this program builds. -/
def joinP (a b : String) : String := a ++ "/" ++ b

/-- The extension chosen by `format === "txt" ? "txt" : "json"`, with dot. -/
def extOf (format : String) : String :=
  if format == "txt" then ".txt" else ".json"

def dirListing (fs : List StoredFile) (d : String) : List String :=
  (fs.filter (fun f => f.dir == d)).map (·.name)

def readStored (fs : List StoredFile) (d n : String) : Option Chapter :=
  (fs.find? (fun f => f.dir == d && f.name == n)).map (·.ch)

def upsertFile (fs : List StoredFile) (d n : String) (c : Chapter) : List StoredFile :=
  if fs.any (fun f => f.dir == d && f.name == n) then
    fs.map (fun f => if f.dir == d && f.name == n then ⟨d, n, c⟩ else f)
  else fs ++ [⟨d, n, c⟩]

/-- The file key chosen by `saveChapter` (index.js lines 45-47):
`chapter.number` if truthy, else `chapter.order` — and reading `.toString()`
of an absent `order` throws a `TypeError`. -/
def chapterFileKey (c : Chapter) : Except String Nat :=
  match c.number with
  | some n =>
    if n ≠ 0 then .ok n
    else
      match c.order with
      | some o => .ok o
      | none => .error "TypeError: chapter.order is undefined"
  | none =>
    match c.order with
    | some o => .ok o
    | none => .error "TypeError: chapter.order is undefined"

/-- The chapter file name `chapter-<5-digit zero-padded key>.<ext>`. -/
def chapterFileNameE (c : Chapter) (format : String) : Except String String :=
  (chapterFileKey c).map (fun k => "chapter-" ++ padStart5 k ++ extOf format)

/-- The comparator of `updateStoryJson` (index.js lines 69-76): ascending by
number when both present, numbered before numberless, numberless by
`order || 0`. -/
def manifestCmp (a b : Chapter) : Int :=
  match a.number, b.number with
  | some m, some n => (m : Int) - (n : Int)
  | some _, none => -1
  | none, some _ => 1
  | none, none => ((a.order.getD 0 : Nat) : Int) - ((b.order.getD 0 : Nat) : Int)

def manifestRel (a b : Chapter) : Prop := manifestCmp a b ≤ 0

instance : DecidableRel manifestRel := fun a b =>
  inferInstanceAs (Decidable (manifestCmp a b ≤ 0))

/-- Same comparator on manifest entries (they keep `number` and `order`). -/
def metaCmp (a b : ChapterMeta) : Int :=
  match a.number, b.number with
  | some m, some n => (m : Int) - (n : Int)
  | some _, none => -1
  | none, some _ => 1
  | none, none => ((a.order.getD 0 : Nat) : Int) - ((b.order.getD 0 : Nat) : Int)

def metaRel (a b : ChapterMeta) : Prop := metaCmp a b ≤ 0

instance : DecidableRel metaRel := fun a b =>
  inferInstanceAs (Decidable (metaCmp a b ≤ 0))

/-- The chapter sequence written by `updateStoryJson` (index.js lines 68-87):
sort the accumulator, then strip `content` from each record. -/
def updateStoryJsonList (l : List Chapter) : List ChapterMeta :=
  (List.insertionSort manifestRel l).map Chapter.meta

/-- `getExistingChapters` (index.js lines 115-137): scan the (unsanitized)
`chapters` directory, keep files with the configured extension, parse
`chapter-(\d+)` from each name into a `Set`.  The set is modelled as a
duplicate-free list in insertion order. -/
def setInsert (s : List Nat) (n : Nat) : List Nat :=
  if s.contains n then s else s ++ [n]

def getExistingChaptersM (fs : List StoredFile) (storySlug outputDir format : String) :
    List Nat :=
  let chaptersDir := joinP (joinP outputDir storySlug) "chapters"
  (dirListing fs chaptersDir).foldl
    (fun s f =>
      if (extOf format).toList.isSuffixOf f.toList then
        match parseChapterFileNumber f with
        | some n => setInsert s n
        | none => s
      else s) []

/-- The existing-chapter preload of index.js lines 242-267: list the
(unsanitized) `chapters` directory, filter by extension, sort the names, read
each file back (JSON format only). -/
def loadExistingM (fs : List StoredFile) (storySlug outputDir format : String) :
    List Chapter :=
  let chaptersDir := joinP (joinP outputDir storySlug) "chapters"
  let chapterFiles := List.insertionSort strRel
    ((dirListing fs chaptersDir).filter
      (fun f => (extOf format).toList.isSuffixOf f.toList))
  if format == "json" then chapterFiles.filterMap (readStored fs chaptersDir)
  else []

/-- The error-log line appended by `onError` (index.js line 318); note
`chapter.number || "N/A"`. -/
def errorLogLine (e : ErrorRecord) : String :=
  "[" ++ e.timestamp ++ "] Chapter " ++
  (match e.chapter.number with
   | some n => if n ≠ 0 then toString n else "N/A"
   | none => "N/A") ++
  " - " ++ e.chapter.title ++ ": " ++ e.error ++ "\n"

/-! ## Argument parsing (index.js lines 176-200) -/

/-- One step of the option loop for a flag without a usable lookahead value
(end of the argument list, or the next argument is the falsy `""`): only the
plain flags fire, value flags fall through with `i++`. -/
def applyPlainFlag (a : String) (o : Options) : Options :=
  if a == "--resume" then { o with resume := true }
  else if a == "--no-resume" then { o with resume := false }
  else if a == "--force" then { o with force := true, resume := false }
  else o

def parseArgsFrom : List String → Options → Except String Options
  | [], o => .ok o
  | [a], o => .ok (applyPlainFlag a o)
  | a :: v :: rest, o =>
    if a == "--output-dir" then
      if v.isEmpty then parseArgsFrom (v :: rest) o
      else parseArgsFrom rest { o with outputDir := v }
    else if a == "--delay" then
      if v.isEmpty then parseArgsFrom (v :: rest) o
      else parseArgsFrom rest { o with delayMs := parseIntJs v }
    else if a == "--start" then
      if v.isEmpty then parseArgsFrom (v :: rest) o
      else parseArgsFrom rest { o with startChapter := parseIntJs v }
    else if a == "--end" then
      if v.isEmpty then parseArgsFrom (v :: rest) o
      else parseArgsFrom rest { o with endChapter := parseIntJs v }
    else if a == "--format" then
      if v.isEmpty then parseArgsFrom (v :: rest) o
      else if v == "json" || v == "txt" then parseArgsFrom rest { o with format := v }
      else .error "Error: Format must be either json or txt"
    else parseArgsFrom (v :: rest) (applyPlainFlag a o)

/-- Parse the option arguments following the story URL. -/
def parseOptionsM (args : List String) : Except String Options :=
  parseArgsFrom args defaultOptions

/-! ## Range and resume filtering (Crawler.js lines 240-277) -/

/-- The `[start, end]` range filter (Crawler.js lines 241-249), applied when
either bound is truthy; numberless references always pass. -/
def rangeFilterRefs (o : Options) (l : List ChapterRef) : List ChapterRef :=
  if truthyNum o.startChapter || truthyNum o.endChapter then
    l.filter (fun ch =>
      match ch.number with
      | none => true
      | some n =>
        !(truthyNum o.startChapter && decide (n < o.startChapter.getD 0)) &&
        !(truthyNum o.endChapter && decide (n > o.endChapter.getD 0)))
  else l

/-- The resume filter (Crawler.js lines 251-277), applied when a nonempty
existing-chapter set was passed; numberless references are kept. -/
def resumeFilterRefs (ex : Option (List Nat)) (l : List ChapterRef) : List ChapterRef :=
  match ex with
  | some s =>
    if s.length > 0 then
      l.filter (fun ch =>
        match ch.number with
        | none => true
        | some n => !s.contains n)
    else l
  | none => l

/-! ## The chapter loop (Crawler.js lines 285-326 with the index.js callbacks) -/

/-- Mutable state of one run of the chapter loop, together with the event
lists the claims observe.  `widx` is the ordinal of the next filesystem write
(write 0 of the run is `info.json`). -/
structure LoopState where
  widx : Nat
  allCrawled : List Chapter
  crawled : List Chapter
  saved : Nat
  skipped : Nat
  failedSaves : List String
  chapterWrites : List (String × String × Chapter)
  manifests : List (List Chapter × List ChapterMeta)
  errors : List ErrorRecord
  errorLog : List String
  fs : List StoredFile
  loopFetched : List String
deriving DecidableEq, Repr

/-- `onError` (index.js lines 314-322): build the record and append its
formatted line to `errors.log`. -/
def recordErr (w : World) (st : LoopState) (r : ChapterRef) (msg : String) : LoopState :=
  let e : ErrorRecord := ⟨r, msg, w.clock st.errors.length⟩
  { st with errors := st.errors ++ [e], errorLog := st.errorLog ++ [errorLogLine e] }

/-- One iteration of the chapter loop for reference `r`: fetch and extract
(`getChapterContent`); on failure run `onError` and continue.  On success run
`onChapterCrawled`: the skip path (`existingChapters.has(chapter.number)` on
`main`'s set, force off) bumps `skippedCount`, pushes the chapter into the
accumulator unless an entry with the same number exists, and rewrites the
manifest — a manifest-write failure there escapes `onChapterCrawled` and is
caught by the loop's catch, which runs `onError`.  The save path computes the
file name (which throws for a numberless chapter, since the fetched record
has no `order`), writes the file, bumps `savedCount`, pushes the chapter and
rewrites the manifest; any failure inside this path is caught by
`onChapterCrawled`'s own try/catch and only logged. -/
def crawlStep (w : World) (o : Options) (si : StoryInfo) (mainEx : List Nat)
    (st : LoopState) (r : ChapterRef) : LoopState :=
  match getChapterContentM w r.url with
  | .error msg =>
    recordErr w { st with loopFetched := st.loopFetched ++ [r.url] } r msg
  | .ok ch =>
    let st1 := { st with loopFetched := st.loopFetched ++ [r.url],
                         crawled := st.crawled ++ [ch] }
    let chaptersDir := joinP (joinP o.outputDir (sanitizeFileName si.slug)) "chapters"
    let inEx :=
      match ch.number with
      | some n => mainEx.contains n
      | none => false
    if !o.force && inEx then
      let ac :=
        if (st1.allCrawled.find? (fun c => c.number == ch.number)).isSome then
          st1.allCrawled
        else st1.allCrawled ++ [ch]
      let st2 := { st1 with skipped := st1.skipped + 1, allCrawled := ac,
                            widx := st1.widx + 1 }
      if w.writeOk st1.widx then
        { st2 with manifests := st2.manifests ++ [(ac, updateStoryJsonList ac)] }
      else recordErr w st2 r (w.writeErr st1.widx)
    else
      match chapterFileNameE ch o.format with
      | .error m => { st1 with failedSaves := st1.failedSaves ++ [m] }
      | .ok name =>
        if w.writeOk st1.widx then
          let st3 := { st1 with
            widx := st1.widx + 2
            fs := upsertFile st1.fs chaptersDir name ch
            chapterWrites := st1.chapterWrites ++ [(chaptersDir, name, ch)]
            saved := st1.saved + 1
            allCrawled := st1.allCrawled ++ [ch] }
          if w.writeOk (st1.widx + 1) then
            { st3 with manifests :=
                st3.manifests ++ [(st3.allCrawled, updateStoryJsonList st3.allCrawled)] }
          else { st3 with failedSaves := st3.failedSaves ++ [w.writeErr (st1.widx + 1)] }
        else { st1 with widx := st1.widx + 1,
                        failedSaves := st1.failedSaves ++ [w.writeErr st1.widx] }

/-! ## The whole run (`main`, index.js lines 151-352) -/

/-- `main`'s `existingChapters` set: computed from the (unsanitized) slug
directory when force mode is off, otherwise left as the empty set. -/
def mainExistingOf (w : World) (fs0 : List StoredFile) (storyUrl : String)
    (o : Options) : List Nat :=
  if !o.force then
    getExistingChaptersM fs0 (getStoryInfoM w storyUrl).slug o.outputDir o.format
  else []

/-- The chapters preloaded into `allCrawledChapters` (index.js lines 242-267):
only when force is off and the existing set is nonempty. -/
def loadedOf (w : World) (fs0 : List StoredFile) (storyUrl : String)
    (o : Options) : List Chapter :=
  if !o.force && (mainExistingOf w fs0 storyUrl o).length > 0 then
    loadExistingM fs0 (getStoryInfoM w storyUrl).slug o.outputDir o.format
  else []

/-- The filtered reference sequence the chapter loop iterates over
(`chaptersToCrawl`): merged and sorted references, range filter, then resume
filter with `main`'s set (passed only when force is off). -/
def chaptersToCrawlOf (w : World) (fs0 : List StoredFile) (storyUrl : String)
    (o : Options) : List ChapterRef :=
  resumeFilterRefs
    (if !o.force then some (mainExistingOf w fs0 storyUrl o) else none)
    (rangeFilterRefs o (sortedRefsOf w))

/-- The loop state at the start of the chapter loop. -/
def initLoopState (fs0 : List StoredFile) (loaded : List Chapter) : LoopState :=
  { widx := 1, allCrawled := loaded, crawled := [], saved := 0, skipped := 0,
    failedSaves := [], chapterWrites := [], manifests := [], errors := [],
    errorLog := [], fs := fs0, loopFetched := [] }

/-- Everything one run observably does. -/
structure RunResult where
  fatal : Option String
  trace : List String
  infoWrites : List StoryInfo
  loaded : List Chapter
  mainExisting : List Nat
  toCrawl : List ChapterRef
  crawled : List Chapter
  saved : Nat
  skipped : Nat
  failedSaves : List String
  chapterWrites : List (String × String × Chapter)
  manifests : List (List Chapter × List ChapterMeta)
  errors : List ErrorRecord
  errorLog : List String
  fsFinal : List StoredFile
  summary : List (String × Int)
deriving DecidableEq, Repr

/-- One run of `main` on a parsed option record: fetch the root page for
`StoryInfo`, persist it (write 0 — a failure here escapes to `main`'s catch
and aborts the run), compute the resume set and preload, run `crawlStory`
(which fetches the root page again inside `getAllChapters`, then every
listing page, then the chapter loop), and print the final summary.  The
summary skip count is `finalExistingChapters.size - savedCount`, printed only
when positive; `skippedCount` is tracked but never reported. -/
def runMain (w : World) (fs0 : List StoredFile) (storyUrl : String)
    (o : Options) : RunResult :=
  let si := getStoryInfoM w storyUrl
  if w.writeOk 0 then
    let mainEx := mainExistingOf w fs0 storyUrl o
    let loaded := loadedOf w fs0 storyUrl o
    let toCrawl := chaptersToCrawlOf w fs0 storyUrl o
    let stF := toCrawl.foldl (crawlStep w o si mainEx) (initLoopState fs0 loaded)
    let finalEx := getExistingChaptersM stF.fs si.slug o.outputDir o.format
    let totalSkipped : Int := (finalEx.length : Int) - (stF.saved : Int)
    { fatal := none
      trace := [storyUrl, storyUrl] ++ listingPageUrls w storyUrl ++ stF.loopFetched
      infoWrites := [si]
      loaded := loaded
      mainExisting := mainEx
      toCrawl := toCrawl
      crawled := stF.crawled
      saved := stF.saved
      skipped := stF.skipped
      failedSaves := stF.failedSaves
      chapterWrites := stF.chapterWrites
      manifests := stF.manifests
      errors := stF.errors
      errorLog := stF.errorLog
      fsFinal := stF.fs
      summary :=
        [("Total chapters crawled", (stF.crawled.length : Int)),
         ("Chapters saved", (stF.saved : Int))] ++
        (if totalSkipped > 0 then
          [("Chapters skipped (already existed)", totalSkipped)]
        else []) }
  else
    { fatal := some (w.writeErr 0), trace := [storyUrl], infoWrites := [],
      loaded := [], mainExisting := [], toCrawl := [], crawled := [],
      saved := 0, skipped := 0, failedSaves := [], chapterWrites := [],
      manifests := [], errors := [], errorLog := [], fsFinal := fs0,
      summary := [] }

/-! ## Auxiliary definitions for the statements -/

/-- The numbers carried by a chapter list (duplicates included). -/
def chNums (l : List Chapter) : List Nat := l.filterMap Chapter.number

/-- The numbers carried by a manifest (duplicates included). -/
def metaNums (l : List ChapterMeta) : List Nat := l.filterMap ChapterMeta.number

/-- The number a reference would contribute to the manifest accumulator if its
iteration pushes a chapter (assuming all writes succeed): fetch must succeed,
the chapter number (re-parsed from the URL) must exist, and the iteration must
take either the skip path (number in `main`'s set, force off) or the save path
with a truthy number. -/
def potentialNum (w : World) (o : Options) (mainEx : List Nat)
    (r : ChapterRef) : Option Nat :=
  match getChapterContentM w r.url with
  | .error _ => none
  | .ok ch =>
    match ch.number with
    | none => none
    | some n =>
      if !o.force && mainEx.contains n then some n
      else if n ≠ 0 then some n else none

/-- A well-formed manifest event: content computed by `updateStoryJson` from
its accumulator, whose numbered entries are duplicate-free. -/
def manifestEntryGood (p : List Chapter × List ChapterMeta) : Prop :=
  p.2 = updateStoryJsonList p.1 ∧ (chNums p.1).Nodup

/-! ## Concrete example runs -/

/-- A story URL whose slug (`truyen`) is unchanged by `sanitizeFileName`. -/
def sUrl : String := "https://truyenfull.vision/truyen"

def cc0 : ChapterContent := ⟨"x", "y"⟩

/-- A chapter page source whose extraction yields the URL as title and a
fixed body. -/
def okPage : String → Except String (String × ChapterContent) :=
  fun u => .ok (u, cc0)

/-- Two listed chapters whose URLs parse to the same number 5. -/
def W1 : World :=
  ⟨"S", 1,
   fun p => if p = 1 then
     [⟨"http://x/chuong-5/", "A"⟩, ⟨"http://x/chuong-5-b/", "B"⟩] else [],
   okPage, fun _ => true, fun _ => "EIO", fun _ => "T"⟩

/-- One listed chapter whose fetch fails terminally. -/
def W2 : World :=
  ⟨"S", 1,
   fun p => if p = 1 then [⟨"http://x/chuong-3/", "C"⟩] else [],
   fun _ => .error "boom", fun _ => true, fun _ => "EIO", fun _ => "T0"⟩

/-- Two listed chapters; the first chapter-file write (write 1) fails. -/
def W3 : World :=
  ⟨"S", 1,
   fun p => if p = 1 then
     [⟨"http://x/chuong-1/", "A"⟩, ⟨"http://x/chuong-2/", "B"⟩] else [],
   okPage, fun k => k != 1, fun _ => "EIO: disk full", fun _ => "T"⟩

/-- Three numberless chapters across two listing pages. -/
def W5 : World :=
  ⟨"S", 2,
   fun p => if p = 1 then [⟨"http://x/pn-a", "A"⟩, ⟨"http://x/pn-b", "B"⟩]
            else if p = 2 then [⟨"http://x/pn-c", "C"⟩] else [],
   okPage, fun _ => true, fun _ => "EIO", fun _ => "T"⟩

/-- Two numbered chapters listed in descending order. -/
def W5w : World :=
  ⟨"S", 1,
   fun p => if p = 1 then
     [⟨"http://x/chuong-2/", "B"⟩, ⟨"http://x/chuong-1/", "A"⟩] else [],
   okPage, fun _ => true, fun _ => "EIO", fun _ => "T"⟩

/-- A numbered chapter and a numberless one. -/
def W6 : World :=
  ⟨"S", 1,
   fun p => if p = 1 then
     [⟨"http://x/chuong-5/", "A"⟩, ⟨"http://x/phien-ngoai", "X"⟩] else [],
   okPage, fun _ => true, fun _ => "EIO", fun _ => "T"⟩

/-- Two numbered chapters, everything succeeds. -/
def W7 : World :=
  ⟨"S", 1,
   fun p => if p = 1 then
     [⟨"http://x/chuong-1/", "A"⟩, ⟨"http://x/chuong-2/", "B"⟩] else [],
   okPage, fun _ => true, fun _ => "EIO", fun _ => "T"⟩

/-- An empty listing. -/
def W9 : World :=
  ⟨"S", 1, fun _ => [], okPage, fun _ => true, fun _ => "EIO", fun _ => "T"⟩

/-- A chapter file already present in the store of `sUrl`. -/
def storedCh1 : Chapter := ⟨some 1, "t", "http://x/chuong-1/", cc0, none⟩

def fs7 : List StoredFile :=
  [⟨"./output/truyen/chapters", "chapter-00001.json", storedCh1⟩]

/-- A story URL whose slug (`truyen?x=1`) is changed by `sanitizeFileName`
(to `truyen_x=1`), so the directory `getExistingChapters` scans differs from
the directory `saveChapter` writes to. -/
def sUrl2 : String := "https://truyenfull.vision/truyen?x=1"

/-- A chapter store as a previous run of the program would leave it for
`sUrl2`: chapter 1 persisted in the sanitized-slug `chapters` directory. -/
def fs7c : List StoredFile :=
  [⟨"./output/truyen_x=1/chapters", "chapter-00001.json", storedCh1⟩]

/-! ## Lemmas about `fetchPage` -/

theorem fetchPageGo_allFail (url : String) (d : Nat) (outcome : Nat → FetchOutcome)
    (m : Nat → String) :
    ∀ (fuel rc : Nat), (∀ k, rc ≤ k → k ≤ rc + fuel → outcome k = .fail (m k)) →
    fetchPageGo url d outcome rc fuel =
      ⟨fuel + 1, (List.range fuel).map (fun i => d * (rc + 1 + i)),
       .error ("Failed to fetch " ++ url ++ ": " ++ m (rc + fuel))⟩
  | 0, rc, h => by
    simp [fetchPageGo, h rc (le_refl rc) (by omega)]
  | fuel + 1, rc, h => by
    have hrc := h rc (le_refl rc) (by omega)
    have ih := fetchPageGo_allFail url d outcome m fuel (rc + 1)
      (fun k hk1 hk2 => h k (by omega) (by omega))
    simp only [fetchPageGo, hrc, ih]
    refine congrArg₂ (FetchTrace.mk (fuel + 1 + 1)) ?_ ?_
    · rw [List.range_succ_eq_map, List.map_cons, List.map_map]
      refine congrArg₂ List.cons (congrArg (fun t => d * t) (by omega)) ?_
      refine List.map_congr_left (fun i _ => ?_)
      show d * (rc + 1 + 1 + i) = d * (rc + 1 + (i + 1))
      exact congrArg (fun t => d * t) (by omega)
    · rw [show rc + 1 + fuel = rc + (fuel + 1) by omega]

/-! ## Lemmas about the two sort comparators -/

instance : IsTotal Chapter manifestRel where
  total a b := by
    unfold manifestRel manifestCmp
    cases ha : a.number <;> cases hb : b.number <;> simp <;> omega

instance : IsTrans Chapter manifestRel where
  trans a b c hab hbc := by
    unfold manifestRel manifestCmp at *
    cases ha : a.number <;> cases hb : b.number <;> cases hc : c.number <;>
      simp_all <;> omega

theorem metaCmp_meta (a b : Chapter) : metaCmp a.meta b.meta = manifestCmp a b := rfl

theorem updateStoryJsonList_pairwise (l : List Chapter) :
    (updateStoryJsonList l).Pairwise metaRel := by
  unfold updateStoryJsonList
  refine List.Pairwise.map Chapter.meta ?_ (List.sorted_insertionSort manifestRel l)
  intro a b hab
  show metaCmp a.meta b.meta ≤ 0
  rw [metaCmp_meta]
  exact hab

theorem updateStoryJsonList_perm (l : List Chapter) :
    (updateStoryJsonList l).Perm (l.map Chapter.meta) :=
  (List.perm_insertionSort manifestRel l).map Chapter.meta

theorem updateStoryJsonList_nodup (l : List Chapter) (h : (chNums l).Nodup) :
    (metaNums (updateStoryJsonList l)).Nodup := by
  unfold updateStoryJsonList metaNums
  rw [List.filterMap_map]
  have hfun : (ChapterMeta.number ∘ Chapter.meta) = Chapter.number :=
    funext (fun c => rfl)
  rw [hfun]
  exact ((List.perm_insertionSort manifestRel l).filterMap Chapter.number).nodup_iff.mpr h

/-- Pairwise sortedness of `orderedInsert`, with totality and transitivity
required only on a predicate `P` covering the inserted elements (the
`getAllChapters` comparator is not globally consistent, so the global Mathlib
lemma does not apply). -/
theorem pairwise_orderedInsert_restricted {α : Type} (r : α → α → Prop)
    [DecidableRel r] (P : α → Prop)
    (htot : ∀ a b, P a → P b → r a b ∨ r b a)
    (htrans : ∀ a b c, P a → P b → P c → r a b → r b c → r a c)
    (a : α) (l : List α) (ha : P a) (hl : ∀ x ∈ l, P x) (hpw : l.Pairwise r) :
    (List.orderedInsert r a l).Pairwise r ∧ ∀ x ∈ List.orderedInsert r a l, P x := by
  induction l with
  | nil =>
    refine ⟨List.pairwise_singleton r a, ?_⟩
    intro x hx
    rcases List.mem_singleton.mp hx with rfl
    exact ha
  | cons b t ih =>
    rw [List.orderedInsert]
    by_cases hab : r a b
    · rw [if_pos hab]
      refine ⟨List.pairwise_cons.mpr ⟨?_, hpw⟩, ?_⟩
      · intro x hx
        rcases List.mem_cons.mp hx with hxb | hxt
        · rw [hxb]; exact hab
        · exact htrans a b x ha (hl b (by simp)) (hl x (by simp [hxt])) hab
            (List.rel_of_pairwise_cons hpw hxt)
      · intro x hx
        rcases List.mem_cons.mp hx with hxa | hx2
        · rw [hxa]; exact ha
        · exact hl x hx2
    · rw [if_neg hab]
      have hba : r b a := (htot a b ha (hl b (by simp))).resolve_left hab
      obtain ⟨ih1, ih2⟩ := ih (fun x hx => hl x (by simp [hx])) hpw.of_cons
      refine ⟨List.pairwise_cons.mpr ⟨?_, ih1⟩, ?_⟩
      · intro x hx
        rcases (List.mem_orderedInsert r).mp hx with hxa | hxt
        · rw [hxa]; exact hba
        · exact List.rel_of_pairwise_cons hpw hxt
      · intro x hx
        rcases List.mem_cons.mp hx with hxb | hx2
        · rw [hxb]; exact hl b (by simp)
        · exact ih2 x hx2

/-- `insertionSort` is pairwise-sorted whenever the comparator is total and
transitive on a predicate covering the input list. -/
theorem pairwise_insertionSort_restricted {α : Type} (r : α → α → Prop)
    [DecidableRel r] (P : α → Prop)
    (htot : ∀ a b, P a → P b → r a b ∨ r b a)
    (htrans : ∀ a b c, P a → P b → P c → r a b → r b c → r a c) :
    ∀ (l : List α), (∀ x ∈ l, P x) →
      (List.insertionSort r l).Pairwise r ∧ ∀ x ∈ List.insertionSort r l, P x
  | [], _ => ⟨List.Pairwise.nil, by simp⟩
  | a :: t, hl => by
    rw [List.insertionSort]
    obtain ⟨ih1, ih2⟩ := pairwise_insertionSort_restricted r P htot htrans t
      (fun x hx => hl x (by simp [hx]))
    exact pairwise_orderedInsert_restricted r P htot htrans a _ (hl a (by simp)) ih2 ih1

/-! ## Lemmas about the chapter loop -/

theorem crawlStep_fetchErr (w : World) (o : Options) (si : StoryInfo)
    (mainEx : List Nat) (st : LoopState) (r : ChapterRef) (msg : String)
    (h : getChapterContentM w r.url = .error msg) :
    crawlStep w o si mainEx st r =
      recordErr w { st with loopFetched := st.loopFetched ++ [r.url] } r msg := by
  simp only [crawlStep, h]

theorem crawlStep_loopFetched (w : World) (o : Options) (si : StoryInfo)
    (mainEx : List Nat) (st : LoopState) (r : ChapterRef) :
    (crawlStep w o si mainEx st r).loopFetched = st.loopFetched ++ [r.url] := by
  unfold crawlStep
  cases getChapterContentM w r.url with
  | error msg => simp [recordErr]
  | ok ch =>
    dsimp only
    repeat' split
    all_goals rfl

theorem foldl_loopFetched (w : World) (o : Options) (si : StoryInfo)
    (mainEx : List Nat) :
    ∀ (l : List ChapterRef) (st : LoopState),
      (l.foldl (crawlStep w o si mainEx) st).loopFetched =
        st.loopFetched ++ l.map (·.url)
  | [], st => by simp
  | r :: t, st => by
    rw [List.foldl_cons, foldl_loopFetched w o si mainEx t,
        crawlStep_loopFetched]
    simp

theorem crawlStep_errors_mono (w : World) (o : Options) (si : StoryInfo)
    (mainEx : List Nat) (st : LoopState) (r : ChapterRef) {e : ErrorRecord}
    (h : e ∈ st.errors) : e ∈ (crawlStep w o si mainEx st r).errors := by
  unfold crawlStep
  cases getChapterContentM w r.url with
  | error msg => simp [recordErr, h]
  | ok ch =>
    dsimp only
    repeat' split
    all_goals first
    | exact h
    | simp [recordErr, h]

theorem crawlStep_errorLog_mono (w : World) (o : Options) (si : StoryInfo)
    (mainEx : List Nat) (st : LoopState) (r : ChapterRef) {s : String}
    (h : s ∈ st.errorLog) : s ∈ (crawlStep w o si mainEx st r).errorLog := by
  unfold crawlStep
  cases getChapterContentM w r.url with
  | error msg => simp [recordErr, h]
  | ok ch =>
    dsimp only
    repeat' split
    all_goals first
    | exact h
    | simp [recordErr, h]

theorem foldl_errors_mono (w : World) (o : Options) (si : StoryInfo)
    (mainEx : List Nat) :
    ∀ (l : List ChapterRef) (st : LoopState) {e : ErrorRecord},
      e ∈ st.errors → e ∈ (l.foldl (crawlStep w o si mainEx) st).errors
  | [], _, _, h => h
  | r :: t, st, e, h => by
    rw [List.foldl_cons]
    exact foldl_errors_mono w o si mainEx t _
      (crawlStep_errors_mono w o si mainEx st r h)

theorem foldl_errorLog_mono (w : World) (o : Options) (si : StoryInfo)
    (mainEx : List Nat) :
    ∀ (l : List ChapterRef) (st : LoopState) {s : String},
      s ∈ st.errorLog → s ∈ (l.foldl (crawlStep w o si mainEx) st).errorLog
  | [], _, _, h => h
  | r :: t, st, s, h => by
    rw [List.foldl_cons]
    exact foldl_errorLog_mono w o si mainEx t _
      (crawlStep_errorLog_mono w o si mainEx st r h)

theorem foldl_errors_of_fetchfail (w : World) (o : Options) (si : StoryInfo)
    (mainEx : List Nat) :
    ∀ (l : List ChapterRef) (st : LoopState) (r : ChapterRef) (msg : String),
      r ∈ l → getChapterContentM w r.url = .error msg →
      ∃ ts, ErrorRecord.mk r msg ts ∈ (l.foldl (crawlStep w o si mainEx) st).errors ∧
        errorLogLine (ErrorRecord.mk r msg ts) ∈
          (l.foldl (crawlStep w o si mainEx) st).errorLog
  | [], _, r, _, hr, _ => absurd hr (by simp)
  | a :: t, st, r, msg, hr, hf => by
    rw [List.foldl_cons]
    rcases List.mem_cons.mp hr with hra | hrt
    · subst hra
      refine ⟨w.clock st.errors.length, ?_, ?_⟩
      · refine foldl_errors_mono w o si mainEx t _ ?_
        rw [crawlStep_fetchErr w o si mainEx st r msg hf]
        simp [recordErr]
      · refine foldl_errorLog_mono w o si mainEx t _ ?_
        rw [crawlStep_fetchErr w o si mainEx st r msg hf]
        simp [recordErr]
    · exact foldl_errors_of_fetchfail w o si mainEx t _ r msg hrt hf

theorem getChapterContentM_ok (w : World) (u : String) (ch : Chapter)
    (h : getChapterContentM w u = .ok ch) :
    ch.order = none ∧ ch.number = parseChapterNumber u ∧ ch.url = u := by
  unfold getChapterContentM at h
  cases hp : w.chapterPage u with
  | error m => rw [hp] at h; exact absurd h (by simp)
  | ok tc =>
    rw [hp] at h
    have := Except.ok.inj h
    rw [← this]
    exact ⟨rfl, rfl, rfl⟩

theorem filterMap_cons_toList {α β : Type} (f : α → Option β) (a : α) (l : List α) :
    List.filterMap f (a :: l) = (f a).toList ++ List.filterMap f l := by
  cases h : f a <;> simp [List.filterMap_cons, h]

theorem crawlStep_manifest_invariant (w : World) (o : Options) (si : StoryInfo)
    (mainEx : List Nat) (hw : ∀ k, w.writeOk k = true)
    (st : LoopState) (r : ChapterRef) (T : List Nat)
    (hnd : (chNums st.allCrawled ++ ((potentialNum w o mainEx r).toList ++ T)).Nodup) :
    (chNums (crawlStep w o si mainEx st r).allCrawled ++ T).Nodup ∧
    ∀ p ∈ (crawlStep w o si mainEx st r).manifests,
      p ∈ st.manifests ∨ manifestEntryGood p := by
  cases hfetch : getChapterContentM w r.url with
  | error msg =>
    have hpot : potentialNum w o mainEx r = none := by
      simp [potentialNum, hfetch]
    rw [hpot] at hnd
    rw [crawlStep_fetchErr w o si mainEx st r msg hfetch]
    refine ⟨by simpa using hnd, fun p hp => Or.inl ?_⟩
    simpa [recordErr] using hp
  | ok ch =>
    obtain ⟨hord, -, -⟩ := getChapterContentM_ok w r.url ch hfetch
    cases hcn : ch.number with
    | none =>
      have hpot : potentialNum w o mainEx r = none := by
        simp only [potentialNum, hfetch, hcn]
      have hfile : chapterFileNameE ch o.format =
          .error "TypeError: chapter.order is undefined" := by
        simp [chapterFileNameE, chapterFileKey, hcn, hord, Except.map]
      have hstep : crawlStep w o si mainEx st r =
          { st with loopFetched := st.loopFetched ++ [r.url],
                    crawled := st.crawled ++ [ch],
                    failedSaves :=
                      st.failedSaves ++ ["TypeError: chapter.order is undefined"] } := by
        simp [crawlStep, hfetch, hcn, hfile]
      rw [hpot] at hnd
      rw [hstep]
      exact ⟨by simpa using hnd, fun p hp => Or.inl hp⟩
    | some n =>
      cases hsc : (!o.force && mainEx.contains n) with
      | true =>
        have hpot : potentialNum w o mainEx r = some n := by
          simp only [potentialNum, hfetch, hcn, hsc]
          simp
        rw [hpot] at hnd
        have hnd2 : (chNums st.allCrawled ++ n :: T).Nodup := by simpa using hnd
        have hnd3 : ((chNums st.allCrawled ++ [n]) ++ T).Nodup := by
          rw [← List.append_cons]; exact hnd2
        have hAnd : (chNums st.allCrawled).Nodup :=
          List.Nodup.sublist (List.sublist_append_left _ _) hnd2
        have hApn : (chNums (st.allCrawled ++ [ch])).Nodup := by
          simp only [chNums, List.filterMap_append]
          have hn1 : List.filterMap Chapter.number [ch] = [n] := by simp [hcn]
          rw [hn1]
          exact List.Nodup.sublist (List.sublist_append_left _ _) hnd3
        have hstep : crawlStep w o si mainEx st r =
            (if (st.allCrawled.find? (fun c => c.number == some n)).isSome then
              { st with loopFetched := st.loopFetched ++ [r.url],
                        crawled := st.crawled ++ [ch],
                        skipped := st.skipped + 1,
                        widx := st.widx + 1,
                        manifests := st.manifests ++
                          [(st.allCrawled, updateStoryJsonList st.allCrawled)] }
            else
              { st with loopFetched := st.loopFetched ++ [r.url],
                        crawled := st.crawled ++ [ch],
                        skipped := st.skipped + 1,
                        allCrawled := st.allCrawled ++ [ch],
                        widx := st.widx + 1,
                        manifests := st.manifests ++
                          [(st.allCrawled ++ [ch],
                            updateStoryJsonList (st.allCrawled ++ [ch]))] }) := by
          simp only [crawlStep, hfetch, hcn, hsc]
          rw [hw st.widx]
          cases hfind : (st.allCrawled.find? (fun c => c.number == some n)).isSome <;>
            simp only [hfind] <;> simp
        rw [hstep]
        by_cases hfind : (st.allCrawled.find? (fun c => c.number == some n)).isSome
        · rw [if_pos hfind]
          refine ⟨?_, ?_⟩
          · exact List.Nodup.sublist
              ((List.sublist_cons_self n T).append_left _) hnd2
          · intro p hp
            rcases List.mem_append.mp hp with h1 | h2
            · exact Or.inl h1
            · rcases List.mem_singleton.mp h2 with rfl
              exact Or.inr ⟨rfl, hAnd⟩
        · rw [if_neg hfind]
          refine ⟨?_, ?_⟩
          · simp only [chNums, List.filterMap_append]
            have hn1 : List.filterMap Chapter.number [ch] = [n] := by simp [hcn]
            rw [hn1]
            simpa only [chNums] using hnd3
          · intro p hp
            rcases List.mem_append.mp hp with h1 | h2
            · exact Or.inl h1
            · rcases List.mem_singleton.mp h2 with rfl
              exact Or.inr ⟨rfl, hApn⟩
      | false =>
        by_cases hn0 : n = 0
        · subst hn0
          have hpot : potentialNum w o mainEx r = none := by
            simp only [potentialNum, hfetch, hcn, hsc]
            simp
          have hfile : chapterFileNameE ch o.format =
              .error "TypeError: chapter.order is undefined" := by
            simp [chapterFileNameE, chapterFileKey, hcn, hord, Except.map]
          have hstep : crawlStep w o si mainEx st r =
              { st with loopFetched := st.loopFetched ++ [r.url],
                        crawled := st.crawled ++ [ch],
                        failedSaves :=
                          st.failedSaves ++ ["TypeError: chapter.order is undefined"] } := by
            simp only [crawlStep, hfetch, hcn, hsc, hfile]
            simp
          rw [hpot] at hnd
          rw [hstep]
          exact ⟨by simpa using hnd, fun p hp => Or.inl hp⟩
        · have hpot : potentialNum w o mainEx r = some n := by
            simp only [potentialNum, hfetch, hcn, hsc]
            simp [hn0]
          rw [hpot] at hnd
          have hnd2 : (chNums st.allCrawled ++ n :: T).Nodup := by simpa using hnd
          have hnd3 : ((chNums st.allCrawled ++ [n]) ++ T).Nodup := by
            rw [← List.append_cons]; exact hnd2
          have hApn : (chNums (st.allCrawled ++ [ch])).Nodup := by
            simp only [chNums, List.filterMap_append]
            have hn1 : List.filterMap Chapter.number [ch] = [n] := by simp [hcn]
            rw [hn1]
            exact List.Nodup.sublist (List.sublist_append_left _ _) hnd3
          have hfile : chapterFileNameE ch o.format =
              .ok ("chapter-" ++ padStart5 n ++ extOf o.format) := by
            simp [chapterFileNameE, chapterFileKey, hcn, hn0, Except.map]
          have hstep : crawlStep w o si mainEx st r =
              { st with loopFetched := st.loopFetched ++ [r.url],
                        crawled := st.crawled ++ [ch],
                        widx := st.widx + 2,
                        fs := upsertFile st.fs
                          (joinP (joinP o.outputDir (sanitizeFileName si.slug)) "chapters")
                          ("chapter-" ++ padStart5 n ++ extOf o.format) ch,
                        chapterWrites := st.chapterWrites ++
                          [(joinP (joinP o.outputDir (sanitizeFileName si.slug)) "chapters",
                            "chapter-" ++ padStart5 n ++ extOf o.format, ch)],
                        saved := st.saved + 1,
                        allCrawled := st.allCrawled ++ [ch],
                        manifests := st.manifests ++
                          [(st.allCrawled ++ [ch],
                            updateStoryJsonList (st.allCrawled ++ [ch]))] } := by
            simp only [crawlStep, hfetch, hcn, hsc, hfile]
            rw [hw st.widx, hw (st.widx + 1)]
            simp
          rw [hstep]
          refine ⟨?_, ?_⟩
          · simp only [chNums, List.filterMap_append]
            have hn1 : List.filterMap Chapter.number [ch] = [n] := by simp [hcn]
            rw [hn1]
            simpa only [chNums] using hnd3
          · intro p hp
            rcases List.mem_append.mp hp with h1 | h2
            · exact Or.inl h1
            · rcases List.mem_singleton.mp h2 with rfl
              exact Or.inr ⟨rfl, hApn⟩

theorem foldl_manifest_invariant (w : World) (o : Options) (si : StoryInfo)
    (mainEx : List Nat) (hw : ∀ k, w.writeOk k = true) :
    ∀ (l : List ChapterRef) (st : LoopState),
      (chNums st.allCrawled ++ l.filterMap (potentialNum w o mainEx)).Nodup →
      (∀ p ∈ st.manifests, manifestEntryGood p) →
      ∀ p ∈ (l.foldl (crawlStep w o si mainEx) st).manifests, manifestEntryGood p
  | [], _, _, hman => hman
  | a :: t, st, hnd, hman => by
    rw [List.foldl_cons]
    have hnd0 : (chNums st.allCrawled ++
        ((potentialNum w o mainEx a).toList ++
          t.filterMap (potentialNum w o mainEx))).Nodup := by
      rw [← filterMap_cons_toList]
      exact hnd
    obtain ⟨h1, h2⟩ := crawlStep_manifest_invariant w o si mainEx hw st a
      (t.filterMap (potentialNum w o mainEx)) hnd0
    exact foldl_manifest_invariant w o si mainEx hw t (crawlStep w o si mainEx st a)
      h1 (fun p hp => (h2 p hp).elim (fun h => hman p h) id) 

/-! ## Unfolding lemmas for `runMain` on a successful startup -/

theorem runMain_fatal (w : World) (fs0 : List StoredFile) (storyUrl : String)
    (o : Options) (h0 : w.writeOk 0 = true) :
    (runMain w fs0 storyUrl o).fatal = none := by
  rw [runMain, if_pos h0]

theorem runMain_infoWrites (w : World) (fs0 : List StoredFile) (storyUrl : String)
    (o : Options) (h0 : w.writeOk 0 = true) :
    (runMain w fs0 storyUrl o).infoWrites = [getStoryInfoM w storyUrl] := by
  rw [runMain, if_pos h0]

theorem runMain_toCrawl (w : World) (fs0 : List StoredFile) (storyUrl : String)
    (o : Options) (h0 : w.writeOk 0 = true) :
    (runMain w fs0 storyUrl o).toCrawl = chaptersToCrawlOf w fs0 storyUrl o := by
  rw [runMain, if_pos h0]

theorem runMain_loopState (w : World) (fs0 : List StoredFile) (storyUrl : String)
    (o : Options) (h0 : w.writeOk 0 = true) :
    runMain w fs0 storyUrl o =
      (let si := getStoryInfoM w storyUrl
       let stF := (chaptersToCrawlOf w fs0 storyUrl o).foldl
         (crawlStep w o si (mainExistingOf w fs0 storyUrl o))
         (initLoopState fs0 (loadedOf w fs0 storyUrl o))
       let finalEx := getExistingChaptersM stF.fs si.slug o.outputDir o.format
       let totalSkipped : Int := (finalEx.length : Int) - (stF.saved : Int)
       { fatal := none
         trace := [storyUrl, storyUrl] ++ listingPageUrls w storyUrl ++ stF.loopFetched
         infoWrites := [si]
         loaded := loadedOf w fs0 storyUrl o
         mainExisting := mainExistingOf w fs0 storyUrl o
         toCrawl := chaptersToCrawlOf w fs0 storyUrl o
         crawled := stF.crawled
         saved := stF.saved
         skipped := stF.skipped
         failedSaves := stF.failedSaves
         chapterWrites := stF.chapterWrites
         manifests := stF.manifests
         errors := stF.errors
         errorLog := stF.errorLog
         fsFinal := stF.fs
         summary :=
           [("Total chapters crawled", (stF.crawled.length : Int)),
            ("Chapters saved", (stF.saved : Int))] ++
           (if totalSkipped > 0 then
             [("Chapters skipped (already existed)", totalSkipped)]
           else []) }) := by
  rw [runMain, if_pos h0]

theorem runMain_trace (w : World) (fs0 : List StoredFile) (storyUrl : String)
    (o : Options) (h0 : w.writeOk 0 = true) :
    (runMain w fs0 storyUrl o).trace =
      [storyUrl, storyUrl] ++ listingPageUrls w storyUrl ++
        (chaptersToCrawlOf w fs0 storyUrl o).map (·.url) := by
  rw [runMain_loopState w fs0 storyUrl o h0]
  show [storyUrl, storyUrl] ++ listingPageUrls w storyUrl ++ _ = _
  rw [foldl_loopFetched]
  rfl

/-! ## Page-URL disjointness (for counting root fetches) -/

theorem stripTrailingSlash_length (s : String) :
    s.length ≤ (stripTrailingSlash s).length + 1 := by
  unfold stripTrailingSlash
  split
  · have h1 : (String.mk s.toList.dropLast).length = s.toList.dropLast.length := rfl
    have h2 : s.toList.length = s.length := rfl
    rw [h1, List.length_dropLast, h2]
    omega
  · omega

theorem pageUrlM_ne (storyUrl : String) (p : Nat) :
    pageUrlM storyUrl p ≠ storyUrl := by
  unfold pageUrlM
  split
  · intro hEq
    have hlen := congrArg String.length hEq
    rw [String.length_append, String.length_append, String.length_append] at hlen
    have hs := stripTrailingSlash_length storyUrl
    have h7 : ("/trang-" : String).length = 7 := rfl
    have h14 : ("/#list-chapter" : String).length = 14 := rfl
    rw [h7, h14] at hlen
    omega
  · intro hEq
    have hlen := congrArg String.length hEq
    rw [String.length_append] at hlen
    have h13 : ("#list-chapter" : String).length = 13 := rfl
    rw [h13] at hlen
    omega

theorem count_storyUrl_listingPageUrls (w : World) (storyUrl : String) :
    (listingPageUrls w storyUrl).count storyUrl = 0 := by
  rw [List.count_eq_zero]
  intro hmem
  rw [listingPageUrls, List.mem_map] at hmem
  obtain ⟨i, -, hEq⟩ := hmem
  exact pageUrlM_ne storyUrl (i + 1) hEq

/-! ## The claims -/

/-- C4 (confirmed): for every URL and every schedule on which each of the
`retries + 1` attempts fails, `fetchPage` makes exactly `retries + 1` attempts
(so it retries exactly up to the configured retry count), waits
`delay * attemptNumber` before the `attemptNumber`-th retry (linear backoff),
and finally throws an error whose message carries the URL and the message of
the last underlying error. -/
theorem c4_theorem (url : String) (delayMs retries : Nat)
    (outcome : Nat → FetchOutcome) (m : Nat → String)
    (h : ∀ k, k ≤ retries → outcome k = .fail (m k)) :
    fetchPageM url delayMs retries outcome =
      ⟨retries + 1, (List.range retries).map (fun i => delayMs * (i + 1)),
       .error ("Failed to fetch " ++ url ++ ": " ++ m retries)⟩ := by
  have hgo := fetchPageGo_allFail url delayMs outcome m retries 0
    (fun k hk1 hk2 => h k (by omega))
  rw [fetchPageM, hgo]
  refine congrArg₂ (FetchTrace.mk (retries + 1)) ?_ ?_
  · refine List.map_congr_left (fun i _ => ?_)
    exact congrArg (fun t => delayMs * t) (by omega)
  · rw [Nat.zero_add]

theorem c4_witness :
    (∀ k, k ≤ 2 → (fun _ : Nat => FetchOutcome.fail "boom") k =
      .fail ((fun _ : Nat => "boom") k)) ∧
    fetchPageM "http://u" 10 2 (fun _ => .fail "boom") =
      ⟨2 + 1, (List.range 2).map (fun i => 10 * (i + 1)),
       .error ("Failed to fetch " ++ "http://u" ++ ": " ++ (fun _ : Nat => "boom") 2)⟩ :=
  ⟨fun _ _ => rfl,
   c4_theorem "http://u" 10 2 (fun _ => .fail "boom") (fun _ => "boom") (fun _ _ => rfl)⟩

/-- C5 (counterexample to the claim as stated): with two listing pages whose
per-page `order` indices restart at 0, the merged reference list
`[A(order 0), B(order 1), C(order 0)]` is all numberless, the comparator is
consistent on it (it compares every pair by `order`), and any correct sort —
in particular the model sort — puts `C` (page 2, order 0) before
`B` (page 1, order 1), so two references that both lack a number do not keep
their relative order from the merged listing. -/
theorem c5_counterexample :
    mergedRefs W5 =
      [⟨none, "A", "http://x/pn-a", 0⟩, ⟨none, "B", "http://x/pn-b", 1⟩,
       ⟨none, "C", "http://x/pn-c", 0⟩] ∧
    sortedRefsOf W5 =
      [⟨none, "A", "http://x/pn-a", 0⟩, ⟨none, "C", "http://x/pn-c", 0⟩,
       ⟨none, "B", "http://x/pn-b", 1⟩] ∧
    (⟨none, "B", "http://x/pn-b", 1⟩ : ChapterRef).number = none ∧
    (⟨none, "C", "http://x/pn-c", 0⟩ : ChapterRef).number = none := by
  decide

/-- C5 (amended): the merged reference sequence is sorted by the
`getAllChapters` comparator — number difference when both references are
numbered, otherwise difference of the per-page `order` (which restarts at 0
on every listing page), so numberless references are interleaved by per-page
position rather than keeping their merged listing order.  In particular,
whenever every merged reference carries a number (the only case in which the
comparator is consistent regardless of `order` values), any two references
appear in ascending number order. -/
theorem c5_theorem (w : World)
    (hall : ∀ r ∈ mergedRefs w, r.number.isSome = true) :
    (sortedRefsOf w).Pairwise (fun a b => a.number.getD 0 ≤ b.number.getD 0) := by
  have htot : ∀ a b : ChapterRef, a.number.isSome = true → b.number.isSome = true →
      chapterRel a b ∨ chapterRel b a := by
    intro a b ha hb
    rcases Option.isSome_iff_exists.mp ha with ⟨m, hm⟩
    rcases Option.isSome_iff_exists.mp hb with ⟨n, hn⟩
    unfold chapterRel chapterCmp
    rw [hm, hn]
    dsimp only
    omega
  have htrans : ∀ a b c : ChapterRef, a.number.isSome = true →
      b.number.isSome = true → c.number.isSome = true →
      chapterRel a b → chapterRel b c → chapterRel a c := by
    intro a b c ha hb hc hab hbc
    rcases Option.isSome_iff_exists.mp ha with ⟨m, hm⟩
    rcases Option.isSome_iff_exists.mp hb with ⟨n, hn⟩
    rcases Option.isSome_iff_exists.mp hc with ⟨k, hk⟩
    unfold chapterRel chapterCmp at *
    rw [hm, hn] at hab
    rw [hn, hk] at hbc
    rw [hm, hk]
    dsimp only at hab hbc ⊢
    omega
  obtain ⟨h1, h2⟩ := pairwise_insertionSort_restricted chapterRel
    (fun x => x.number.isSome = true) htot htrans (mergedRefs w) hall
  refine List.Pairwise.imp_of_mem ?_ h1
  intro a b hma hmb hab
  have ha := h2 a hma
  have hb := h2 b hmb
  rcases Option.isSome_iff_exists.mp ha with ⟨m, hm⟩
  rcases Option.isSome_iff_exists.mp hb with ⟨n, hn⟩
  unfold chapterRel chapterCmp at hab
  rw [hm, hn] at hab
  rw [hm, hn]
  dsimp only at hab ⊢
  simp only [Option.getD_some]
  omega

theorem c5_witness :
    (∀ r ∈ mergedRefs W5w, r.number.isSome = true) ∧
    (sortedRefsOf W5w).Pairwise (fun a b => a.number.getD 0 ≤ b.number.getD 0) :=
  ⟨by decide, c5_theorem W5w (by decide)⟩

/-- C6 (code bug): `saveChapter` keys the file by the zero-padded chapter
number, but for a numberless chapter it reads `chapter.order` — a field the
chapter record produced by `getChapterContent` never carries — so instead of
a file keyed by the listing position, the write throws a `TypeError` before
touching the disk, is swallowed by `onChapterCrawled`, and the chapter is
never persisted: in the run below, the numbered chapter produces
`chapter-00005.json` while the numberless one produces only a logged save
failure and no file. -/
theorem c6_theorem :
    getChapterContentM W6 "http://x/phien-ngoai" =
      .ok ⟨none, "http://x/phien-ngoai", "http://x/phien-ngoai", cc0, none⟩ ∧
    chapterFileNameE
      ⟨none, "http://x/phien-ngoai", "http://x/phien-ngoai", cc0, none⟩ "json" =
      .error "TypeError: chapter.order is undefined" ∧
    chapterFileNameE ⟨some 5, "t", "u", cc0, none⟩ "json" = .ok "chapter-00005.json" ∧
    (runMain W6 [] sUrl defaultOptions).chapterWrites.map (fun t => t.2.1) =
      ["chapter-00005.json"] ∧
    (runMain W6 [] sUrl defaultOptions).failedSaves =
      ["TypeError: chapter.order is undefined"] := by
  decide

/-- C1 (counterexample to the claim as stated): a fresh run whose listing
contains two URLs that both parse to chapter number 5 saves both chapters and
pushes both into the accumulator, so the second manifest write contains two
distinct entries with the same number 5. -/
theorem c1_counterexample :
    (runMain W1 [] sUrl defaultOptions).manifests.map Prod.snd =
      [[⟨some 5, "http://x/chuong-5/", "http://x/chuong-5/", none⟩],
       [⟨some 5, "http://x/chuong-5/", "http://x/chuong-5/", none⟩,
        ⟨some 5, "http://x/chuong-5-b/", "http://x/chuong-5-b/", none⟩]] ∧
    ((⟨some 5, "http://x/chuong-5/", "http://x/chuong-5/", none⟩ : ChapterMeta) ≠
      ⟨some 5, "http://x/chuong-5-b/", "http://x/chuong-5-b/", none⟩) := by
  decide

/-- C1 (amended): provided every filesystem write succeeds and the numbers of
the initially loaded chapters together with the numbers the filtered
references can push are pairwise distinct, every manifest written during the
run is sorted by the `updateStoryJson` comparator (numbered entries ascending,
numberless entries after them ordered by `order`), contains no two entries
with the same number, and is exactly (a permutation-free sort of) the
metadata of the accumulator of chapters persisted or skip-recorded so far;
when the listing repeats a parsed number, duplicate manifest entries do occur
(see the counterexample). -/
theorem c1_theorem (w : World) (fs0 : List StoredFile) (storyUrl : String)
    (o : Options) (hw : ∀ k, w.writeOk k = true)
    (hnd : (chNums (loadedOf w fs0 storyUrl o) ++
        (chaptersToCrawlOf w fs0 storyUrl o).filterMap
          (potentialNum w o (mainExistingOf w fs0 storyUrl o))).Nodup) :
    ∀ p ∈ (runMain w fs0 storyUrl o).manifests,
      p.2.Pairwise metaRel ∧ (metaNums p.2).Nodup ∧
        p.2.Perm (p.1.map Chapter.meta) := by
  intro p hp
  rw [runMain_loopState w fs0 storyUrl o (hw 0)] at hp
  have hman := foldl_manifest_invariant w o (getStoryInfoM w storyUrl)
    (mainExistingOf w fs0 storyUrl o) hw (chaptersToCrawlOf w fs0 storyUrl o)
    (initLoopState fs0 (loadedOf w fs0 storyUrl o))
    (by simpa [initLoopState] using hnd)
    (by intro q hq; simp [initLoopState] at hq) p hp
  obtain ⟨hEq, hNd⟩ := hman
  rw [hEq]
  exact ⟨updateStoryJsonList_pairwise p.1, updateStoryJsonList_nodup p.1 hNd,
    updateStoryJsonList_perm p.1⟩

theorem c1_witness :
    (∀ k, W7.writeOk k = true) ∧
    (chNums (loadedOf W7 [] sUrl defaultOptions) ++
      (chaptersToCrawlOf W7 [] sUrl defaultOptions).filterMap
        (potentialNum W7 defaultOptions
          (mainExistingOf W7 [] sUrl defaultOptions))).Nodup ∧
    ∀ p ∈ (runMain W7 [] sUrl defaultOptions).manifests,
      p.2.Pairwise metaRel ∧ (metaNums p.2).Nodup ∧
        p.2.Perm (p.1.map Chapter.meta) :=
  ⟨fun _ => rfl, by decide,
   c1_theorem W7 [] sUrl defaultOptions (fun _ => rfl) (by decide)⟩

/-- C2 (counterexample to the claim as stated): in a run whose single chapter
fetch fails terminally, one error record is appended, yet the final summary
consists of exactly two counts — chapters crawled and chapters saved — with
no skipped count and no failed count at all. -/
theorem c2_counterexample :
    (runMain W2 [] sUrl defaultOptions).summary =
      [("Total chapters crawled", 0), ("Chapters saved", 0)] ∧
    (runMain W2 [] sUrl defaultOptions).errors.length = 1 ∧
    (runMain W2 [] sUrl defaultOptions).skipped = 0 := by
  decide

/-- C2 (amended): when the run starts (the `info.json` write succeeds), the
final summary always reports the crawled count and the saved count; every
summary line is one of "Total chapters crawled", "Chapters saved", or
"Chapters skipped (already existed)" (the latter computed as existing files
minus saved and printed only when positive) — in particular no failed count
is ever reported; failures are only recorded in the error log. -/
theorem c2_theorem (w : World) (fs0 : List StoredFile) (storyUrl : String)
    (o : Options) (h0 : w.writeOk 0 = true) :
    ("Total chapters crawled", ((runMain w fs0 storyUrl o).crawled.length : Int)) ∈
      (runMain w fs0 storyUrl o).summary ∧
    ("Chapters saved", ((runMain w fs0 storyUrl o).saved : Int)) ∈
      (runMain w fs0 storyUrl o).summary ∧
    ∀ x ∈ (runMain w fs0 storyUrl o).summary,
      x.1 = "Total chapters crawled" ∨ x.1 = "Chapters saved" ∨
        x.1 = "Chapters skipped (already existed)" := by
  rw [runMain_loopState w fs0 storyUrl o h0]
  refine ⟨by simp, by simp, ?_⟩
  intro x hx
  rcases List.mem_append.mp hx with h1 | h2
  · rcases List.mem_cons.mp h1 with hx1 | h1b
    · left; rw [hx1]
    · rcases List.mem_singleton.mp h1b with hx2
      right; left; rw [hx2]
  · split at h2
    · rcases List.mem_singleton.mp h2 with hx3
      right; right; rw [hx3]
    · exact absurd h2 (by simp)

theorem c2_witness :
    W2.writeOk 0 = true ∧
    (("Total chapters crawled", ((runMain W2 [] sUrl defaultOptions).crawled.length : Int)) ∈
        (runMain W2 [] sUrl defaultOptions).summary ∧
      ("Chapters saved", ((runMain W2 [] sUrl defaultOptions).saved : Int)) ∈
        (runMain W2 [] sUrl defaultOptions).summary ∧
      ∀ x ∈ (runMain W2 [] sUrl defaultOptions).summary,
        x.1 = "Total chapters crawled" ∨ x.1 = "Chapters saved" ∨
          x.1 = "Chapters skipped (already existed)") :=
  ⟨rfl, c2_theorem W2 [] sUrl defaultOptions rfl⟩

/-- C3 (counterexample to the claim as stated): when the write of chapter 1
fails with an I/O error, the error is caught inside `onChapterCrawled` and
merely logged: the run goes on to fetch chapter 2, persist it, and print the
final summary — nothing propagates and nothing aborts. -/
theorem c3_counterexample :
    (runMain W3 [] sUrl defaultOptions).failedSaves = ["EIO: disk full"] ∧
    (runMain W3 [] sUrl defaultOptions).trace =
      [sUrl, sUrl, sUrl ++ "#list-chapter", "http://x/chuong-1/",
       "http://x/chuong-2/"] ∧
    (runMain W3 [] sUrl defaultOptions).chapterWrites.map (fun t => t.2.1) =
      ["chapter-00002.json"] ∧
    (runMain W3 [] sUrl defaultOptions).summary =
      [("Total chapters crawled", 2), ("Chapters saved", 1)] := by
  decide

/-- C3 (amended): an I/O failure while writing a chapter file or rewriting
the manifest inside the chapter loop never aborts the run: whatever the
write oracle does after the startup write, the run does not go fatal and
every filtered reference is still fetched (on the save path the failure is
caught and logged by `onChapterCrawled`; on the skip path it is recorded as
an error record by the loop's catch); only a persistence failure outside the
loop — persisting `StoryInfo` at startup — aborts the run. -/
theorem c3_theorem (w : World) (fs0 : List StoredFile) (storyUrl : String)
    (o : Options) (h0 : w.writeOk 0 = true) :
    (runMain w fs0 storyUrl o).fatal = none ∧
    (runMain w fs0 storyUrl o).trace =
      [storyUrl, storyUrl] ++ listingPageUrls w storyUrl ++
        (chaptersToCrawlOf w fs0 storyUrl o).map (·.url) :=
  ⟨runMain_fatal w fs0 storyUrl o h0, runMain_trace w fs0 storyUrl o h0⟩

theorem c3_witness :
    W3.writeOk 0 = true ∧
    ((runMain W3 [] sUrl defaultOptions).fatal = none ∧
      (runMain W3 [] sUrl defaultOptions).trace =
        [sUrl, sUrl] ++ listingPageUrls W3 sUrl ++
          (chaptersToCrawlOf W3 [] sUrl defaultOptions).map (·.url)) :=
  ⟨rfl, c3_theorem W3 [] sUrl defaultOptions rfl⟩

/-- C7 (counterexample to the claim as stated): `getExistingChapters` scans
the directory named by the raw slug (index.js line 116) while `saveChapter`
writes to the directory named by the sanitized slug, so for a slug that
`sanitizeFileName` changes (here `truyen?x=1`, sanitized to `truyen_x=1`)
the ResumeSet is not computed from the chapter-store directory: with chapter
1 already persisted in the chapter store, the computed set is empty while the
set the chapter store actually yields is `[1]`, the numbered reference for
chapter 1 stays in the fetch list, and the run re-fetches it and overwrites
its file in the store. -/
theorem c7_counterexample :
    mainExistingOf W7 fs7c sUrl2 defaultOptions = [] ∧
    getExistingChaptersM fs7c (sanitizeFileName (getStoryInfoM W7 sUrl2).slug)
      defaultOptions.outputDir defaultOptions.format = [1] ∧
    (⟨some 1, "A", "http://x/chuong-1/", 0⟩ : ChapterRef) ∈
      chaptersToCrawlOf W7 fs7c sUrl2 defaultOptions ∧
    (runMain W7 fs7c sUrl2 defaultOptions).chapterWrites.map (fun t => t.1) =
      ["./output/truyen_x=1/chapters", "./output/truyen_x=1/chapters"] ∧
    (runMain W7 fs7c sUrl2 defaultOptions).chapterWrites.map (fun t => t.2.1) =
      ["chapter-00001.json", "chapter-00002.json"] := by
  decide

/-- C7 (amended): with force mode off, the ResumeSet is computed at run start
from the directory named by the raw (unsanitized) slug, which coincides with
the chapter-store directory written by `saveChapter` exactly when the slug is
unchanged by `sanitizeFileName`; under that condition, every range-surviving
reference whose number is in the set is dropped from the fetch list, every
numberless range-surviving reference is kept, and the chapter fetches issued
are exactly the URLs of the filtered list.  When sanitization changes the
slug, the scanned directory is not the chapter store and already-persisted
chapters are re-fetched and overwritten (see the counterexample). -/
theorem c7_theorem (w : World) (fs0 : List StoredFile) (storyUrl : String)
    (o : Options) (h0 : w.writeOk 0 = true) (hforce : o.force = false)
    (hslug : sanitizeFileName (getStoryInfoM w storyUrl).slug =
      (getStoryInfoM w storyUrl).slug) :
    mainExistingOf w fs0 storyUrl o =
      getExistingChaptersM fs0 (sanitizeFileName (getStoryInfoM w storyUrl).slug)
        o.outputDir o.format ∧
    (∀ r ∈ rangeFilterRefs o (sortedRefsOf w), ∀ n, r.number = some n →
      (mainExistingOf w fs0 storyUrl o).contains n →
      r ∉ chaptersToCrawlOf w fs0 storyUrl o) ∧
    (∀ r ∈ rangeFilterRefs o (sortedRefsOf w), r.number = none →
      r ∈ chaptersToCrawlOf w fs0 storyUrl o) ∧
    (runMain w fs0 storyUrl o).trace =
      [storyUrl, storyUrl] ++ listingPageUrls w storyUrl ++
        (chaptersToCrawlOf w fs0 storyUrl o).map (·.url) := by
  have hnf : (!o.force) = true := by rw [hforce]; rfl
  have hCrawl : chaptersToCrawlOf w fs0 storyUrl o =
      resumeFilterRefs (some (mainExistingOf w fs0 storyUrl o))
        (rangeFilterRefs o (sortedRefsOf w)) := by
    unfold chaptersToCrawlOf
    rw [hnf]
    simp
  refine ⟨?_, ?_, ?_, runMain_trace w fs0 storyUrl o h0⟩
  · rw [hslug]
    unfold mainExistingOf
    rw [hnf]
    simp
  · intro r hrR n hn hcont
    rw [hCrawl]
    unfold resumeFilterRefs
    dsimp only
    have hlen : (mainExistingOf w fs0 storyUrl o).length > 0 := by
      cases hS : mainExistingOf w fs0 storyUrl o with
      | nil => rw [hS] at hcont; exact absurd hcont (by simp [List.contains])
      | cons a t => simp
    rw [if_pos hlen]
    intro hmem
    rw [List.mem_filter] at hmem
    obtain ⟨-, hpred⟩ := hmem
    rw [hn] at hpred
    dsimp only at hpred
    rw [hcont] at hpred
    exact absurd hpred (by simp)
  · intro r hrR hn
    rw [hCrawl]
    unfold resumeFilterRefs
    dsimp only
    by_cases hlen : (mainExistingOf w fs0 storyUrl o).length > 0
    · rw [if_pos hlen, List.mem_filter]
      refine ⟨hrR, ?_⟩
      rw [hn]
    · rw [if_neg hlen]
      exact hrR

theorem c7_witness :
    W7.writeOk 0 = true ∧ defaultOptions.force = false ∧
    sanitizeFileName (getStoryInfoM W7 sUrl).slug = (getStoryInfoM W7 sUrl).slug ∧
    (mainExistingOf W7 fs7 sUrl defaultOptions =
        getExistingChaptersM fs7 (sanitizeFileName (getStoryInfoM W7 sUrl).slug)
          defaultOptions.outputDir defaultOptions.format ∧
      (∀ r ∈ rangeFilterRefs defaultOptions (sortedRefsOf W7), ∀ n,
        r.number = some n →
        (mainExistingOf W7 fs7 sUrl defaultOptions).contains n →
        r ∉ chaptersToCrawlOf W7 fs7 sUrl defaultOptions) ∧
      (∀ r ∈ rangeFilterRefs defaultOptions (sortedRefsOf W7), r.number = none →
        r ∈ chaptersToCrawlOf W7 fs7 sUrl defaultOptions) ∧
      (runMain W7 fs7 sUrl defaultOptions).trace =
        [sUrl, sUrl] ++ listingPageUrls W7 sUrl ++
          (chaptersToCrawlOf W7 fs7 sUrl defaultOptions).map (·.url)) :=
  ⟨rfl, rfl, by decide, c7_theorem W7 fs7 sUrl defaultOptions rfl rfl (by decide)⟩

/-- C8 (confirmed): for every reference in the filtered fetch list whose
chapter fetch fails terminally (retry budget exhausted), an error record
carrying the reference, the failure message and a timestamp is appended to
the in-memory error list and its formatted line to `errors.log`, and the
loop still fetches every reference of the list — a single failure never
terminates the run. -/
theorem c8_theorem (w : World) (fs0 : List StoredFile) (storyUrl : String)
    (o : Options) (r : ChapterRef) (msg : String) (h0 : w.writeOk 0 = true)
    (hr : r ∈ chaptersToCrawlOf w fs0 storyUrl o)
    (hf : w.chapterPage r.url = .error msg) :
    (∃ ts,
      ErrorRecord.mk r ("Failed to get chapter content from " ++ r.url ++ ": " ++ msg)
          ts ∈ (runMain w fs0 storyUrl o).errors ∧
      errorLogLine (ErrorRecord.mk r
          ("Failed to get chapter content from " ++ r.url ++ ": " ++ msg) ts) ∈
        (runMain w fs0 storyUrl o).errorLog) ∧
    (runMain w fs0 storyUrl o).trace =
      [storyUrl, storyUrl] ++ listingPageUrls w storyUrl ++
        (chaptersToCrawlOf w fs0 storyUrl o).map (·.url) := by
  refine ⟨?_, runMain_trace w fs0 storyUrl o h0⟩
  have hfc : getChapterContentM w r.url =
      .error ("Failed to get chapter content from " ++ r.url ++ ": " ++ msg) := by
    unfold getChapterContentM
    rw [hf]
  rw [runMain_loopState w fs0 storyUrl o h0]
  exact foldl_errors_of_fetchfail w o (getStoryInfoM w storyUrl)
    (mainExistingOf w fs0 storyUrl o) (chaptersToCrawlOf w fs0 storyUrl o)
    (initLoopState fs0 (loadedOf w fs0 storyUrl o)) r _ hr hfc

theorem c8_witness :
    W2.writeOk 0 = true ∧
    (⟨some 3, "C", "http://x/chuong-3/", 0⟩ : ChapterRef) ∈
      chaptersToCrawlOf W2 [] sUrl defaultOptions ∧
    W2.chapterPage "http://x/chuong-3/" = .error "boom" ∧
    ((∃ ts,
      ErrorRecord.mk ⟨some 3, "C", "http://x/chuong-3/", 0⟩
          ("Failed to get chapter content from " ++ "http://x/chuong-3/" ++ ": " ++ "boom")
          ts ∈ (runMain W2 [] sUrl defaultOptions).errors ∧
      errorLogLine (ErrorRecord.mk ⟨some 3, "C", "http://x/chuong-3/", 0⟩
          ("Failed to get chapter content from " ++ "http://x/chuong-3/" ++ ": " ++ "boom")
          ts) ∈ (runMain W2 [] sUrl defaultOptions).errorLog) ∧
      (runMain W2 [] sUrl defaultOptions).trace =
        [sUrl, sUrl] ++ listingPageUrls W2 sUrl ++
          (chaptersToCrawlOf W2 [] sUrl defaultOptions).map (·.url)) :=
  ⟨rfl, by decide, rfl,
   c8_theorem W2 [] sUrl defaultOptions ⟨some 3, "C", "http://x/chuong-3/", 0⟩
     "boom" rfl (by decide) rfl⟩

/-- C9 (counterexample to the claim as stated): even in a minimal run the
story root URL is fetched twice — once by `main` for `getStoryInfo` and once
more inside `getAllChapters` — so it is not fetched exactly once. -/
theorem c9_counterexample :
    (runMain W9 [] sUrl defaultOptions).trace.count sUrl = 2 ∧
    (runMain W9 [] sUrl defaultOptions).trace =
      [sUrl, sUrl, sUrl ++ "#list-chapter"] := by
  decide

/-- C9 (amended): in every run that gets past startup and in which no chapter
reference URL equals the root URL, the story root page is fetched exactly
twice (once by `main` to obtain the `StoryInfo` that is persisted, once again
inside `getAllChapters`), and `StoryInfo` is persisted exactly once,
immediately after the first extraction. -/
theorem c9_theorem (w : World) (fs0 : List StoredFile) (storyUrl : String)
    (o : Options) (h0 : w.writeOk 0 = true)
    (hr : ∀ r ∈ chaptersToCrawlOf w fs0 storyUrl o, r.url ≠ storyUrl) :
    (runMain w fs0 storyUrl o).trace.count storyUrl = 2 ∧
    (runMain w fs0 storyUrl o).infoWrites = [getStoryInfoM w storyUrl] := by
  refine ⟨?_, runMain_infoWrites w fs0 storyUrl o h0⟩
  rw [runMain_trace w fs0 storyUrl o h0]
  rw [List.count_append, List.count_append]
  have h2 : ([storyUrl, storyUrl] : List String).count storyUrl = 2 := by simp
  have hp : (listingPageUrls w storyUrl).count storyUrl = 0 :=
    count_storyUrl_listingPageUrls w storyUrl
  have hc : ((chaptersToCrawlOf w fs0 storyUrl o).map (·.url)).count storyUrl = 0 := by
    rw [List.count_eq_zero]
    intro hmem
    rw [List.mem_map] at hmem
    obtain ⟨r, hrmem, hEq⟩ := hmem
    exact hr r hrmem hEq
  rw [h2, hp, hc]

theorem c9_witness :
    W1.writeOk 0 = true ∧
    (∀ r ∈ chaptersToCrawlOf W1 [] sUrl defaultOptions, r.url ≠ sUrl) ∧
    ((runMain W1 [] sUrl defaultOptions).trace.count sUrl = 2 ∧
      (runMain W1 [] sUrl defaultOptions).infoWrites = [getStoryInfoM W1 sUrl]) :=
  ⟨rfl, by decide, c9_theorem W1 [] sUrl defaultOptions rfl (by decide)⟩

/-- C10 (confirmed): the run is completely insensitive to the parsed
`resume` option — every observable of `runMain` (fetches, filtering, writes,
manifests, errors, summary) is identical for `resume := true` and
`resume := false`, so in a run without force mode, passing `--no-resume`
does not cause already-persisted numbered chapters to be re-crawled. -/
theorem c10_theorem (w : World) (fs0 : List StoredFile) (storyUrl : String)
    (o : Options) (hforce : o.force = false) :
    runMain w fs0 storyUrl { o with resume := true } =
      runMain w fs0 storyUrl { o with resume := false } := by
  cases o
  rfl

theorem c10_witness :
    defaultOptions.force = false ∧
    runMain W1 [] sUrl { defaultOptions with resume := true } =
      runMain W1 [] sUrl { defaultOptions with resume := false } :=
  ⟨rfl, c10_theorem W1 [] sUrl defaultOptions rfl⟩
